import Mathlib

/-!
Shallow embedding of the wallet risk-scoring pipeline
(`risk_scorer.py`, `feature_extractor.py`, `config.py`).

Python floats are modelled as exact rationals (`Rat`); every float literal
of the source (0.25, 0.3, …) is an exact decimal, so the decimal rational
is the intended value.  Python `int(x)` / numpy `astype(int)` truncate
toward zero, modelled by `ratTrunc`.  A pandas DataFrame of records is a
`List` of structures; a possibly-NaN string column is an `Option String`.
-/

/-- Truncation toward zero, as Python `int()` and numpy `astype(int)` do. -/
def ratTrunc (q : Rat) : Int :=
  if q < 0 then -⌊-q⌋ else ⌊q⌋

/-- Minimum of a list of integers (numpy `min` over a nonempty column;
0 for the empty list, which the sources never pass). -/
def listMinInt : List Int → Int
  | [] => 0
  | x :: xs => xs.foldl min x

/-- Maximum of a list of integers (numpy `max`). -/
def listMaxInt : List Int → Int
  | [] => 0
  | x :: xs => xs.foldl max x

/-- The feature fields read by `RiskScorer.calculate_risk_score` via
`features.get` (risk_scorer.py lines 48-170). -/
structure ScoreFeatures where
  supply_to_borrow_ratio : Rat
  number_of_liquidations : Int
  days_since_last_activity : Int
  repayment_frequency : Rat
  volatile_asset_usage : Rat
  protocol_version_usage : String
  collateral_factor_average : Rat

/-- config.py `RISK_WEIGHTS` dict, read through `self.weights.get(component, 0)`. -/
def RISK_WEIGHTS : String → Rat
  | "borrow_supply_ratio" => 0.25
  | "liquidation_count" => 0.20
  | "inactivity_days" => 0.15
  | "repayment_frequency" => 0.15
  | "volatile_asset_usage" => 0.10
  | "protocol_version" => 0.10
  | "collateral_factor" => 0.05
  | _ => 0

/-- risk_scorer.py `_score_borrow_supply_ratio` (lines 48-66). -/
def _score_borrow_supply_ratio (features : ScoreFeatures) : Int :=
  let ratio := features.supply_to_borrow_ratio
  if ratio = 0 then 0
  else if ratio ≤ 0.3 then 100
  else if ratio ≤ 0.5 then 50
  else if ratio ≤ 0.7 then 0
  else if ratio ≤ 0.9 then -50
  else -100

/-- risk_scorer.py `_score_liquidation_count` (lines 68-84). -/
def _score_liquidation_count (features : ScoreFeatures) : Int :=
  let liquidations := features.number_of_liquidations
  if liquidations = 0 then 50
  else if liquidations = 1 then -25
  else if liquidations = 2 then -50
  else if liquidations ≤ 5 then -75
  else -100

/-- risk_scorer.py `_score_inactivity_days` (lines 86-102). -/
def _score_inactivity_days (features : ScoreFeatures) : Int :=
  let inactivity_days := features.days_since_last_activity
  if inactivity_days ≤ 7 then 50
  else if inactivity_days ≤ 30 then 25
  else if inactivity_days ≤ 90 then 0
  else if inactivity_days ≤ 180 then -25
  else -50

/-- risk_scorer.py `_score_repayment_frequency` (lines 104-120). -/
def _score_repayment_frequency (features : ScoreFeatures) : Int :=
  let frequency := features.repayment_frequency
  if frequency ≥ 2.0 then 50
  else if frequency ≥ 1.0 then 25
  else if frequency ≥ 0.5 then 0
  else if frequency > 0 then -25
  else -50

/-- risk_scorer.py `_score_volatile_asset_usage` (lines 122-138). -/
def _score_volatile_asset_usage (features : ScoreFeatures) : Int :=
  let volatile_usage := features.volatile_asset_usage
  if volatile_usage ≤ 0.1 then 50
  else if volatile_usage ≤ 0.3 then 25
  else if volatile_usage ≤ 0.5 then 0
  else if volatile_usage ≤ 0.7 then -25
  else -50

/-- risk_scorer.py `_score_protocol_version` (lines 140-154). -/
def _score_protocol_version (features : ScoreFeatures) : Int :=
  let version := features.protocol_version_usage
  if version = "v3" then 25
  else if version = "v2" then 0
  else if version = "none" then -25
  else 0

/-- risk_scorer.py `_score_collateral_factor` (lines 156-170). -/
def _score_collateral_factor (features : ScoreFeatures) : Int :=
  let collateral_factor := features.collateral_factor_average
  if collateral_factor ≥ 0.8 then 25
  else if collateral_factor ≥ 0.6 then 0
  else if collateral_factor ≥ 0.4 then -25
  else -50

/-- The `risk_components` dict built in `calculate_risk_score`
(risk_scorer.py lines 24-32), in insertion order. -/
def risk_components (features : ScoreFeatures) : List (String × Int) :=
  [("borrow_supply_ratio", _score_borrow_supply_ratio features),
   ("liquidation_count", _score_liquidation_count features),
   ("inactivity_days", _score_inactivity_days features),
   ("repayment_frequency", _score_repayment_frequency features),
   ("volatile_asset_usage", _score_volatile_asset_usage features),
   ("protocol_version", _score_protocol_version features),
   ("collateral_factor", _score_collateral_factor features)]

/-- The weighted-scoring loop of `calculate_risk_score`
(risk_scorer.py lines 34-38). -/
def weighted_score (features : ScoreFeatures) : Rat :=
  (risk_components features).foldl
    (fun acc c => acc + (c.2 : Rat) * RISK_WEIGHTS c.1) 0

/-- risk_scorer.py `RiskScorer.calculate_risk_score` (lines 16-46):
base 500 plus the weighted component sum, clamped to [0,1000],
truncated to an integer. -/
def calculate_risk_score (features : ScoreFeatures) : Int :=
  let base_score : Rat := 500
  let final_score := base_score + weighted_score features
  ratTrunc (max 0 (min 1000 final_score))

/-- risk_scorer.py `RiskScorer.get_risk_category` (lines 207-220). -/
def get_risk_category (score : Int) : String :=
  if score ≥ 800 then "Very Low Risk"
  else if score ≥ 600 then "Low Risk"
  else if score ≥ 400 then "Moderate Risk"
  else if score ≥ 200 then "High Risk"
  else "Very High Risk"

/-- One row of the scores DataFrame built by `score_all_wallets`. -/
structure ScoreRec where
  wallet_id : String
  score : Int
deriving DecidableEq

/-- risk_scorer.py `RiskScorer.normalize_scores` (lines 189-205).
`sklearn.MinMaxScaler().fit_transform` computes
`scale = (1 - 0) / handle_zeros(data_max - data_min)` (a zero range is
replaced by 1) and `min_off = 0 - data_min * scale`, then maps each score
to `score * scale + min_off`; the code multiplies by 1000 and truncates.
The Python method assigns the result back into the `score` column of its
input DataFrame and returns that same DataFrame, so the embedding returns
the pair (state of the input after the call, returned value). -/
def normalize_scores (scores_df : List ScoreRec) : List ScoreRec × List ScoreRec :=
  if scores_df.isEmpty then (scores_df, scores_df)
  else
    let scores := scores_df.map ScoreRec.score
    let data_min := listMinInt scores
    let data_max := listMaxInt scores
    let data_range : Rat := (data_max : Rat) - (data_min : Rat)
    let scale : Rat := 1 / (if data_range = 0 then 1 else data_range)
    let min_off : Rat := 0 - (data_min : Rat) * scale
    let updated := scores_df.map (fun r =>
      { r with score := ratTrunc (((r.score : Rat) * scale + min_off) * 1000) })
    (updated, updated)

/-- Insert into a sorted list (helper for the numpy `median` model). -/
def insertSorted (x : Int) : List Int → List Int
  | [] => [x]
  | y :: ys => if x ≤ y then x :: y :: ys else y :: insertSorted x ys

/-- Ascending insertion sort (helper for the numpy `median` model). -/
def sortInts (l : List Int) : List Int := l.foldr insertSorted []

/-- numpy `median`: middle of the sorted data, or the mean of the two
middles for an even count. -/
def npMedian (l : List Int) : Rat :=
  let s := sortInts l
  let n := s.length
  if n % 2 = 1 then ((s.getD (n / 2) 0 : Int) : Rat)
  else (((s.getD (n / 2 - 1) 0 : Int) : Rat) + ((s.getD (n / 2) 0 : Int) : Rat)) / 2

/-- numpy `mean`. -/
def npMean (l : List Int) : Rat :=
  ((l.map (fun x => (x : Rat))).foldl (· + ·) 0) / (l.length : Rat)

/-- The category counts of `generate_risk_summary`'s `risk_distribution`
dict (risk_scorer.py lines 238-244). -/
structure RiskDistribution where
  very_low_risk : Nat
  low_risk : Nat
  moderate_risk : Nat
  high_risk : Nat
  very_high_risk : Nat
deriving DecidableEq

/-- The summary dict of `generate_risk_summary` (risk_scorer.py lines
231-245).  `std_score_sq` holds the square of the numpy `std` field (the
population variance): the source's standard deviation is its (generally
irrational) square root, which a rational-valued embedding stores squared. -/
structure RiskSummary where
  total_wallets : Nat
  average_score : Rat
  median_score : Rat
  std_score_sq : Rat
  min_score : Int
  max_score : Int
  risk_distribution : RiskDistribution
deriving DecidableEq

/-- risk_scorer.py `RiskScorer.generate_risk_summary` (lines 222-247):
`none` models the empty dict `{}` returned for an empty batch. -/
def generate_risk_summary (scores_df : List ScoreRec) : Option RiskSummary :=
  if scores_df.isEmpty then none
  else
    let scores := scores_df.map ScoreRec.score
    let m := npMean scores
    some
      { total_wallets := scores.length
        average_score := m
        median_score := npMedian scores
        std_score_sq := ((scores.map (fun x => ((x : Rat) - m) ^ 2)).foldl (· + ·) 0)
          / (scores.length : Rat)
        min_score := listMinInt scores
        max_score := listMaxInt scores
        risk_distribution :=
          { very_low_risk := scores.countP (fun s => 800 ≤ s)
            low_risk := scores.countP (fun s => 600 ≤ s ∧ s < 800)
            moderate_risk := scores.countP (fun s => 400 ≤ s ∧ s < 600)
            high_risk := scores.countP (fun s => 200 ≤ s ∧ s < 400)
            very_high_risk := scores.countP (fun s => s < 200) } }

/-!
Feature extractor (feature_extractor.py).  A transaction row is `Tx`:
`market` is `Option String` (`none` models a pandas NaN, excluded by the
`na=False` of `str.contains` and never a member of an `isin` list);
`topics` is `Option (List String)` (`none` models a payload that is not a
Python list, which the `isinstance(x, list)` guards map to no-match).
Timestamps are seconds; a pandas timedelta's `.days` is the floor of the
difference over 86400.
-/

/-- One row of the transactions DataFrame, as read by the extractor. -/
structure Tx where
  wallet : String
  timestamp : Nat
  market : Option String
  topics : Option (List String)
deriving DecidableEq

/-- Whether `pre` is a prefix of `s` (helper for substring containment). -/
def charListHasPre (s pre : List Char) : Bool :=
  match s, pre with
  | _, [] => true
  | [], _ :: _ => false
  | c :: cs, d :: ds => c == d && charListHasPre cs ds

/-- Whether `sub` occurs contiguously in `s` (helper for substring
containment). -/
def charListHasSub (s sub : List Char) : Bool :=
  match s with
  | [] => charListHasPre [] sub
  | _ :: cs => charListHasPre s sub || charListHasSub cs sub

/-- ASCII-faithful `str.lower()` (Lean's `String.toLower` does not
kernel-reduce, so case mapping is done on the character list). -/
def strLower (s : String) : String := String.mk (s.data.map Char.toLower)

/-- ASCII-faithful `str.upper()`. -/
def strUpper (s : String) : String := String.mk (s.data.map Char.toUpper)

/-- Substring containment, Python `sub in s` / pandas `str.contains(sub)`
with a literal pattern. -/
def strContainsSub (s sub : String) : Bool :=
  charListHasSub s.data sub.data

/-- pandas `str.contains(sub, na=False)`: NaN counts as no match. -/
def marketContains (m : Option String) (sub : String) : Bool :=
  match m with
  | none => false
  | some s => strContainsSub s sub

/-- pandas `str.contains(sub, case=False, na=False)`. -/
def marketContainsCI (m : Option String) (sub : String) : Bool :=
  match m with
  | none => false
  | some s => strContainsSub (strLower s) sub

/-- pandas `isin(l)`: NaN is not a member. -/
def marketIsin (m : Option String) (l : List String) : Bool :=
  match m with
  | none => false
  | some s => l.contains s

/-- `any(kw in str(topic).lower() for topic in x) if isinstance(x, list)
else False` from the liquidation/repayment filters. -/
def topicsAnyKw (t : Option (List String)) (kw : String) : Bool :=
  match t with
  | none => false
  | some l => l.any (fun topic => strContainsSub (strLower topic) kw)

/-- Python `str(x).upper()` on a possibly-NaN market column entry
(`str(nan) = "nan"`). -/
def pyStrUpper (m : Option String) : String :=
  match m with
  | none => "NAN"
  | some s => strUpper s

/-- config.py `VOLATILE_ASSETS`. -/
def VOLATILE_ASSETS : List String :=
  ["WBTC", "ETH", "LINK", "UNI", "MKR", "YFI", "AAVE", "SUSHI"]

/-- The keys of config.py `COMPOUND_V2_MARKETS`, in insertion order. -/
def COMPOUND_V2_MARKET_KEYS : List String :=
  ["cDAI", "cUSDC", "cETH", "cWBTC", "cUSDT", "cCOMP", "cUNI",
   "cLINK", "cMKR", "cYFI", "cBAT", "cZRX", "cAAVE", "cSUSHI"]

/-- The keys of config.py `COMPOUND_V3_MARKETS`, in insertion order. -/
def COMPOUND_V3_MARKET_KEYS : List String :=
  ["USDC", "WETH", "WBTC", "LINK", "UNI"]

/-- Minimum of a list of timestamps (pandas `min` over a nonempty column). -/
def listMinNat : List Nat → Nat
  | [] => 0
  | x :: xs => xs.foldl min x

/-- Maximum of a list of timestamps (pandas `max`). -/
def listMaxNat : List Nat → Nat
  | [] => 0
  | x :: xs => xs.foldl max x

/-- feature_extractor.py `_calculate_inactivity_days` (lines 76-85):
whole days between now and the latest transaction. -/
def _calculate_inactivity_days (wallet_txs : List Tx) (now : Nat) : Int :=
  if wallet_txs.isEmpty then 365
  else Int.fdiv ((now : Int) - (listMaxNat (wallet_txs.map Tx.timestamp) : Int)) 86400

/-- feature_extractor.py `_calculate_total_supplied` (lines 87-102):
count of supply-heuristic matches times a flat 1000 USD. -/
def _calculate_total_supplied (wallet_txs : List Tx) : Rat :=
  let supply_events := wallet_txs.filter (fun tx =>
    marketContains tx.market "c" || marketIsin tx.market ["USDC", "WETH", "WBTC"])
  (supply_events.length : Rat) * 1000

/-- feature_extractor.py `_calculate_total_borrowed` (lines 104-115):
the same filter as `_calculate_total_supplied`, times a flat 500 USD. -/
def _calculate_total_borrowed (wallet_txs : List Tx) : Rat :=
  let borrow_events := wallet_txs.filter (fun tx =>
    marketContains tx.market "c" || marketIsin tx.market ["USDC", "WETH", "WBTC"])
  (borrow_events.length : Rat) * 500

/-- feature_extractor.py `_count_liquidations` (lines 117-127). -/
def _count_liquidations (wallet_txs : List Tx) : Nat :=
  (wallet_txs.filter (fun tx =>
    marketContainsCI tx.market "liquidate" || topicsAnyKw tx.topics "liquidate")).length

/-- feature_extractor.py `_calculate_repayment_frequency` (lines 129-153). -/
def _calculate_repayment_frequency (wallet_txs : List Tx) : Rat :=
  if wallet_txs.isEmpty then 0
  else
    let repayment_events := wallet_txs.filter (fun tx =>
      marketContainsCI tx.market "repay" || topicsAnyKw tx.topics "repay")
    if repayment_events.isEmpty then 0
    else
      let time_span := (listMaxNat (wallet_txs.map Tx.timestamp)
        - listMinNat (wallet_txs.map Tx.timestamp)) / 86400
      if time_span = 0 then (repayment_events.length : Rat)
      else
        let months_active : Rat := (time_span : Rat) / 30
        if months_active > 0 then (repayment_events.length : Rat) / months_active else 0

/-- feature_extractor.py `_calculate_volatile_asset_usage` (lines 155-166). -/
def _calculate_volatile_asset_usage (wallet_txs : List Tx) : Rat :=
  if wallet_txs.isEmpty then 0
  else
    let volatile_transactions := wallet_txs.filter (fun tx =>
      VOLATILE_ASSETS.any (fun asset => strContainsSub (pyStrUpper tx.market) asset))
    (volatile_transactions.length : Rat) / (wallet_txs.length : Rat)

/-- feature_extractor.py `_determine_protocol_version` (lines 168-183). -/
def _determine_protocol_version (wallet_txs : List Tx) : String :=
  if wallet_txs.isEmpty then "none"
  else
    let v2_transactions := wallet_txs.filter (fun tx =>
      marketIsin tx.market COMPOUND_V2_MARKET_KEYS)
    let v3_transactions := wallet_txs.filter (fun tx =>
      marketIsin tx.market COMPOUND_V3_MARKET_KEYS)
    if v3_transactions.length > v2_transactions.length then "v3"
    else if v2_transactions.length > 0 then "v2"
    else "unknown"

/-- The `collateral_factors` table of `_calculate_collateral_factor`
(feature_extractor.py lines 195-200), in insertion order. -/
def collateral_factors : List (String × Rat) :=
  [("USDC", 0.85), ("USDT", 0.80), ("DAI", 0.85),
   ("ETH", 0.75), ("WETH", 0.75), ("WBTC", 0.70),
   ("LINK", 0.65), ("UNI", 0.60), ("MKR", 0.55),
   ("YFI", 0.50), ("AAVE", 0.55), ("SUSHI", 0.50)]

/-- The inner loop of `_calculate_collateral_factor`: the factor of the
first table asset contained in the uppercased market label (`break` on the
first match), if any. -/
def firstFactor (market : String) : List (String × Rat) → Option Rat
  | [] => none
  | (asset, factor) :: rest =>
    if strContainsSub market asset then some factor else firstFactor market rest

/-- feature_extractor.py `_calculate_collateral_factor` (lines 185-213). -/
def _calculate_collateral_factor (wallet_txs : List Tx) : Rat :=
  if wallet_txs.isEmpty then 0
  else
    let acc := wallet_txs.foldl (fun (acc : Rat × Nat) tx =>
      match firstFactor (pyStrUpper tx.market) collateral_factors with
      | some factor => (acc.1 + factor, acc.2 + 1)
      | none => acc) (0, 0)
    if acc.2 > 0 then acc.1 / (acc.2 : Rat) else 0

/-- feature_extractor.py `_analyze_borrowing_behavior` (lines 215-234);
the supply pattern is the regex alternation `mint|supply`. -/
def _analyze_borrowing_behavior (wallet_txs : List Tx) : String :=
  if wallet_txs.isEmpty then "none"
  else
    let supply_count := (wallet_txs.filter (fun tx =>
      marketContainsCI tx.market "mint" || marketContainsCI tx.market "supply")).length
    let borrow_count := (wallet_txs.filter (fun tx =>
      marketContainsCI tx.market "borrow")).length
    let repay_count := (wallet_txs.filter (fun tx =>
      marketContainsCI tx.market "repay")).length
    if borrow_count = 0 then "supplier_only"
    else if supply_count = 0 then "borrower_only"
    else if (repay_count : Rat) / (max borrow_count 1 : Rat) > 0.8 then "responsible_borrower"
    else "risky_borrower"

/-- feature_extractor.py `_calculate_health_factor_trend` (lines 236-257):
pandas `tail(10)` keeps the last 10 rows, `head(max(1, len - 10))` the
earlier ones. -/
def _calculate_health_factor_trend (wallet_txs : List Tx) : String :=
  if wallet_txs.isEmpty then "unknown"
  else
    let recent_txs := wallet_txs.drop (wallet_txs.length - 10)
    let older_txs := wallet_txs.take (max 1 (wallet_txs.length - 10))
    let recent_volatility := _calculate_volatile_asset_usage recent_txs
    let older_volatility := _calculate_volatile_asset_usage older_txs
    if recent_volatility < older_volatility then "improving"
    else if recent_volatility > older_volatility then "deteriorating"
    else "stable"

/-- The full feature dict built by `extract_wallet_features`. -/
structure WalletFeatures where
  wallet_id : String
  total_transactions : Nat
  first_transaction_date : Option Nat
  last_transaction_date : Option Nat
  days_since_last_activity : Int
  total_supplied_usd : Rat
  total_borrowed_usd : Rat
  supply_to_borrow_ratio : Rat
  number_of_liquidations : Nat
  repayment_frequency : Rat
  volatile_asset_usage : Rat
  protocol_version_usage : String
  collateral_factor_average : Rat
  borrowing_behavior : String
  health_factor_trend : String
deriving DecidableEq

/-- feature_extractor.py `_get_default_features` (lines 54-74). -/
def _get_default_features (wallet_address : String) : WalletFeatures :=
  { wallet_id := wallet_address
    total_transactions := 0
    first_transaction_date := none
    last_transaction_date := none
    days_since_last_activity := 365
    total_supplied_usd := 0
    total_borrowed_usd := 0
    supply_to_borrow_ratio := 0
    number_of_liquidations := 0
    repayment_frequency := 0
    volatile_asset_usage := 0
    protocol_version_usage := "none"
    collateral_factor_average := 0
    borrowing_behavior := "none"
    health_factor_trend := "stable" }

/-- feature_extractor.py `FeatureExtractor.extract_wallet_features`
(lines 17-52): filter to the wallet's rows, fall back to the default
record when that subset (or the whole frame) is empty, then fill the
feature dict and overwrite `supply_to_borrow_ratio` when supply is
positive.  `now` stands for `datetime.now()`. -/
def extract_wallet_features (transactions_df : List Tx) (wallet_address : String)
    (now : Nat) : WalletFeatures :=
  if transactions_df.isEmpty then _get_default_features wallet_address
  else
    let wallet_txs := transactions_df.filter (fun tx => tx.wallet == wallet_address)
    if wallet_txs.isEmpty then _get_default_features wallet_address
    else
      let total_supplied_usd := _calculate_total_supplied wallet_txs
      let total_borrowed_usd := _calculate_total_borrowed wallet_txs
      { wallet_id := wallet_address
        total_transactions := wallet_txs.length
        first_transaction_date := some (listMinNat (wallet_txs.map Tx.timestamp))
        last_transaction_date := some (listMaxNat (wallet_txs.map Tx.timestamp))
        days_since_last_activity := _calculate_inactivity_days wallet_txs now
        total_supplied_usd := total_supplied_usd
        total_borrowed_usd := total_borrowed_usd
        supply_to_borrow_ratio :=
          if total_supplied_usd > 0 then total_borrowed_usd / total_supplied_usd else 0
        number_of_liquidations := _count_liquidations wallet_txs
        repayment_frequency := _calculate_repayment_frequency wallet_txs
        volatile_asset_usage := _calculate_volatile_asset_usage wallet_txs
        protocol_version_usage := _determine_protocol_version wallet_txs
        collateral_factor_average := _calculate_collateral_factor wallet_txs
        borrowing_behavior := _analyze_borrowing_behavior wallet_txs
        health_factor_trend := _calculate_health_factor_trend wallet_txs }

/-- The concrete feature record of the spec's scoring scenario (claim C1). -/
def c1_features : ScoreFeatures :=
  { supply_to_borrow_ratio := 0.2
    number_of_liquidations := 0
    days_since_last_activity := 5
    repayment_frequency := 2.5
    volatile_asset_usage := 0.05
    protocol_version_usage := "v3"
    collateral_factor_average := 0.85 }

/-! Helper lemmas. -/

lemma foldl_min_le_init (l : List Int) (a : Int) : l.foldl min a ≤ a := by
  induction l generalizing a with
  | nil => exact le_refl a
  | cons y ys ih => exact le_trans (ih (min a y)) (min_le_left a y)

lemma foldl_min_le_mem (l : List Int) (a x : Int) (hx : x ∈ l) : l.foldl min a ≤ x := by
  induction l generalizing a with
  | nil => cases hx
  | cons y ys ih =>
    rcases List.mem_cons.mp hx with h | h
    · subst h
      exact le_trans (foldl_min_le_init ys (min a x)) (min_le_right a x)
    · exact ih (min a y) h

lemma listMinInt_le_mem (l : List Int) (x : Int) (hx : x ∈ l) : listMinInt l ≤ x := by
  cases l with
  | nil => cases hx
  | cons y ys =>
    rcases List.mem_cons.mp hx with h | h
    · subst h
      exact foldl_min_le_init ys x
    · exact foldl_min_le_mem ys y x h

lemma foldl_max_init_le (l : List Int) (a : Int) : a ≤ l.foldl max a := by
  induction l generalizing a with
  | nil => exact le_refl a
  | cons y ys ih => exact le_trans (le_max_left a y) (ih (max a y))

lemma foldl_max_mem_le (l : List Int) (a x : Int) (hx : x ∈ l) : x ≤ l.foldl max a := by
  induction l generalizing a with
  | nil => cases hx
  | cons y ys ih =>
    rcases List.mem_cons.mp hx with h | h
    · subst h
      exact le_trans (le_max_right a x) (foldl_max_init_le ys (max a x))
    · exact ih (max a y) h

lemma le_listMaxInt_mem (l : List Int) (x : Int) (hx : x ∈ l) : x ≤ listMaxInt l := by
  cases l with
  | nil => cases hx
  | cons y ys =>
    rcases List.mem_cons.mp hx with h | h
    · subst h
      exact foldl_max_init_le ys x
    · exact foldl_max_mem_le ys y x h

lemma ratTrunc_eq_floor (q : Rat) (h : 0 ≤ q) : ratTrunc q = ⌊q⌋ := by
  simp [ratTrunc, not_lt.mpr h]

lemma ratTrunc_nonneg (q : Rat) (h : 0 ≤ q) : 0 ≤ ratTrunc q := by
  rw [ratTrunc_eq_floor q h]
  exact Int.le_floor.mpr (by exact_mod_cast h)

lemma ratTrunc_le_of_le (q : Rat) (n : Int) (h0 : 0 ≤ q) (h : q ≤ (n : Rat)) :
    ratTrunc q ≤ n := by
  rw [ratTrunc_eq_floor q h0]
  exact le_trans (Int.floor_mono h) (le_of_eq (Int.floor_intCast n))

lemma le_ratTrunc_of_le (q : Rat) (n : Int) (h : (n : Rat) ≤ q) : n ≤ ratTrunc q := by
  have h0 : 0 ≤ q ∨ q < 0 := le_or_lt 0 q
  rcases h0 with h0 | h0
  · rw [ratTrunc_eq_floor q h0]
    exact Int.le_floor.mpr h
  · rw [ratTrunc, if_pos h0]
    have : (n : Rat) ≤ -⌊-q⌋ := le_trans h (by
      have := Int.floor_le (-q)
      push_cast at this ⊢
      linarith)
    exact_mod_cast this

lemma bsr_bounds (f : ScoreFeatures) :
    -100 ≤ _score_borrow_supply_ratio f ∧ _score_borrow_supply_ratio f ≤ 100 := by
  simp only [_score_borrow_supply_ratio]
  split_ifs <;> decide

lemma liq_bounds (f : ScoreFeatures) :
    -100 ≤ _score_liquidation_count f ∧ _score_liquidation_count f ≤ 50 := by
  simp only [_score_liquidation_count]
  split_ifs <;> decide

lemma inact_bounds (f : ScoreFeatures) :
    -50 ≤ _score_inactivity_days f ∧ _score_inactivity_days f ≤ 50 := by
  simp only [_score_inactivity_days]
  split_ifs <;> decide

lemma repay_bounds (f : ScoreFeatures) :
    -50 ≤ _score_repayment_frequency f ∧ _score_repayment_frequency f ≤ 50 := by
  simp only [_score_repayment_frequency]
  split_ifs <;> decide

lemma vol_bounds (f : ScoreFeatures) :
    -50 ≤ _score_volatile_asset_usage f ∧ _score_volatile_asset_usage f ≤ 50 := by
  simp only [_score_volatile_asset_usage]
  split_ifs <;> decide

lemma ver_bounds (f : ScoreFeatures) :
    -25 ≤ _score_protocol_version f ∧ _score_protocol_version f ≤ 25 := by
  simp only [_score_protocol_version]
  split_ifs <;> decide

lemma coll_bounds (f : ScoreFeatures) :
    -50 ≤ _score_collateral_factor f ∧ _score_collateral_factor f ≤ 25 := by
  simp only [_score_collateral_factor]
  split_ifs <;> decide

lemma weighted_score_eq (f : ScoreFeatures) :
    weighted_score f
      = (_score_borrow_supply_ratio f : Rat) * 0.25 + (_score_liquidation_count f : Rat) * 0.2
        + (_score_inactivity_days f : Rat) * 0.15 + (_score_repayment_frequency f : Rat) * 0.15
        + (_score_volatile_asset_usage f : Rat) * 0.1 + (_score_protocol_version f : Rat) * 0.1
        + (_score_collateral_factor f : Rat) * 0.05 := by
  norm_num [weighted_score, risk_components, RISK_WEIGHTS]

lemma weighted_score_bounds (f : ScoreFeatures) :
    -70 ≤ weighted_score f ∧ weighted_score f ≤ 235 / 4 := by
  obtain ⟨h1a, h1b⟩ := bsr_bounds f
  obtain ⟨h2a, h2b⟩ := liq_bounds f
  obtain ⟨h3a, h3b⟩ := inact_bounds f
  obtain ⟨h4a, h4b⟩ := repay_bounds f
  obtain ⟨h5a, h5b⟩ := vol_bounds f
  obtain ⟨h6a, h6b⟩ := ver_bounds f
  obtain ⟨h7a, h7b⟩ := coll_bounds f
  have c1a : ((-100 : Int) : Rat) ≤ (_score_borrow_supply_ratio f : Rat) := by exact_mod_cast h1a
  have c1b : ((_score_borrow_supply_ratio f : Int) : Rat) ≤ ((100 : Int) : Rat) := by
    exact_mod_cast h1b
  have c2a : ((-100 : Int) : Rat) ≤ (_score_liquidation_count f : Rat) := by exact_mod_cast h2a
  have c2b : ((_score_liquidation_count f : Int) : Rat) ≤ ((50 : Int) : Rat) := by
    exact_mod_cast h2b
  have c3a : ((-50 : Int) : Rat) ≤ (_score_inactivity_days f : Rat) := by exact_mod_cast h3a
  have c3b : ((_score_inactivity_days f : Int) : Rat) ≤ ((50 : Int) : Rat) := by exact_mod_cast h3b
  have c4a : ((-50 : Int) : Rat) ≤ (_score_repayment_frequency f : Rat) := by exact_mod_cast h4a
  have c4b : ((_score_repayment_frequency f : Int) : Rat) ≤ ((50 : Int) : Rat) := by
    exact_mod_cast h4b
  have c5a : ((-50 : Int) : Rat) ≤ (_score_volatile_asset_usage f : Rat) := by exact_mod_cast h5a
  have c5b : ((_score_volatile_asset_usage f : Int) : Rat) ≤ ((50 : Int) : Rat) := by
    exact_mod_cast h5b
  have c6a : ((-25 : Int) : Rat) ≤ (_score_protocol_version f : Rat) := by exact_mod_cast h6a
  have c6b : ((_score_protocol_version f : Int) : Rat) ≤ ((25 : Int) : Rat) := by
    exact_mod_cast h6b
  have c7a : ((-50 : Int) : Rat) ≤ (_score_collateral_factor f : Rat) := by exact_mod_cast h7a
  have c7b : ((_score_collateral_factor f : Int) : Rat) ≤ ((25 : Int) : Rat) := by
    exact_mod_cast h7b
  push_cast at c1a c1b c2a c2b c3a c3b c4a c4b c5a c5b c6a c6b c7a c7b
  rw [weighted_score_eq f]
  constructor <;> linarith

lemma calculate_risk_score_eq (f : ScoreFeatures) :
    calculate_risk_score f = ratTrunc (500 + weighted_score f) := by
  obtain ⟨ha, hb⟩ := weighted_score_bounds f
  simp only [calculate_risk_score]
  rw [min_eq_right (by linarith), max_eq_right (by linarith)]

/-- C1 (counterexample): on the spec's scenario record the raw score is
indeed 558, but `get_risk_category 558` is not `"Low Risk"` (558 < 600),
refuting the claim's final conjunct. -/
theorem C1_counterexample :
    calculate_risk_score c1_features = 558 ∧ get_risk_category 558 ≠ "Low Risk" := by
  constructor
  · norm_num [c1_features, calculate_risk_score, weighted_score, risk_components,
      _score_borrow_supply_ratio, _score_liquidation_count, _score_inactivity_days,
      _score_repayment_frequency, _score_volatile_asset_usage, _score_protocol_version,
      _score_collateral_factor, RISK_WEIGHTS, ratTrunc]
  · decide

/-- C1 (amended): for the scenario feature record the seven component
contributions are {100,50,50,50,50,25,25}, the weighted sum under the
default weights is 58.75, the raw score is 558 after truncation, and the
category of 558 is "Moderate Risk" (not "Low Risk": 558 < 600). -/
theorem C1_amended_scenario :
    (risk_components c1_features).map Prod.snd = [100, 50, 50, 50, 50, 25, 25]
    ∧ weighted_score c1_features = 58.75
    ∧ calculate_risk_score c1_features = 558
    ∧ get_risk_category (calculate_risk_score c1_features) = "Moderate Risk" := by
  have hcomp : (risk_components c1_features).map Prod.snd = [100, 50, 50, 50, 50, 25, 25] := by
    norm_num [c1_features, risk_components, _score_borrow_supply_ratio,
      _score_liquidation_count, _score_inactivity_days, _score_repayment_frequency,
      _score_volatile_asset_usage, _score_protocol_version, _score_collateral_factor]
  have hscore : calculate_risk_score c1_features = 558 := by
    norm_num [c1_features, calculate_risk_score, weighted_score, risk_components,
      _score_borrow_supply_ratio, _score_liquidation_count, _score_inactivity_days,
      _score_repayment_frequency, _score_volatile_asset_usage, _score_protocol_version,
      _score_collateral_factor, RISK_WEIGHTS, ratTrunc]
  refine ⟨hcomp, ?_, hscore, ?_⟩
  · norm_num [c1_features, weighted_score, risk_components, _score_borrow_supply_ratio,
      _score_liquidation_count, _score_inactivity_days, _score_repayment_frequency,
      _score_volatile_asset_usage, _score_protocol_version, _score_collateral_factor,
      RISK_WEIGHTS]
  · rw [hscore]
    decide

/-- C4: for every feature record the integer returned by
`calculate_risk_score` lies in [0, 1000] (the clamp invariant). -/
theorem C4_score_clamped_range (f : ScoreFeatures) :
    0 ≤ calculate_risk_score f ∧ calculate_risk_score f ≤ 1000 := by
  simp only [calculate_risk_score]
  constructor
  · exact ratTrunc_nonneg _ (le_max_left 0 _)
  · refine ratTrunc_le_of_le _ 1000 (le_max_left 0 _) ?_
    refine max_le (by norm_num) ?_
    exact_mod_cast min_le_left (1000 : Rat) _

/-- C10: the raw score always lies in [400, 600]: every component
contribution lies in [-100, 100], the configured weights are non-negative
and sum to 1, the pre-clamp value 500 + weighted sum lies in [400, 600],
and the clamp to [0, 1000] never changes the value. -/
theorem C10_raw_score_range (f : ScoreFeatures) :
    (RISK_WEIGHTS "borrow_supply_ratio" + RISK_WEIGHTS "liquidation_count"
      + RISK_WEIGHTS "inactivity_days" + RISK_WEIGHTS "repayment_frequency"
      + RISK_WEIGHTS "volatile_asset_usage" + RISK_WEIGHTS "protocol_version"
      + RISK_WEIGHTS "collateral_factor" = 1)
    ∧ (∀ s, 0 ≤ RISK_WEIGHTS s)
    ∧ (∀ c ∈ risk_components f, -100 ≤ c.2 ∧ c.2 ≤ 100)
    ∧ 400 ≤ 500 + weighted_score f ∧ 500 + weighted_score f ≤ 600
    ∧ calculate_risk_score f = ratTrunc (500 + weighted_score f)
    ∧ 400 ≤ calculate_risk_score f ∧ calculate_risk_score f ≤ 600 := by
  obtain ⟨ha, hb⟩ := weighted_score_bounds f
  have hlow : (400 : Rat) ≤ 500 + weighted_score f := by linarith
  have hhigh : (500 : Rat) + weighted_score f ≤ 600 := by linarith
  refine ⟨by norm_num [RISK_WEIGHTS], ?_, ?_, hlow, hhigh, calculate_risk_score_eq f, ?_, ?_⟩
  · intro s
    unfold RISK_WEIGHTS
    split <;> norm_num
  · intro c hc
    have h1 := bsr_bounds f
    have h2 := liq_bounds f
    have h3 := inact_bounds f
    have h4 := repay_bounds f
    have h5 := vol_bounds f
    have h6 := ver_bounds f
    have h7 := coll_bounds f
    simp only [risk_components, List.mem_cons, List.not_mem_nil, or_false] at hc
    rcases hc with rfl | rfl | rfl | rfl | rfl | rfl | rfl <;> constructor <;> simp <;> omega
  · rw [calculate_risk_score_eq f]
    exact le_ratTrunc_of_le _ 400 (by exact_mod_cast hlow)
  · rw [calculate_risk_score_eq f]
    exact ratTrunc_le_of_le _ 600 (by linarith) (by exact_mod_cast hhigh)

/-- C8: the empty batch: `normalize_scores` returns the empty batch (input
state and return value both empty) and `generate_risk_summary` returns the
empty summary; neither errors. -/
theorem C8_empty_batch :
    normalize_scores ([] : List ScoreRec) = ([], [])
    ∧ generate_risk_summary ([] : List ScoreRec) = none :=
  ⟨rfl, rfl⟩

/-- C6 (counterexample): `normalize_scores` does not leave its input's
score column unchanged: on the batch [200, 500, 800] the input DataFrame's
scores after the call are [0, 500, 1000]. -/
theorem C6_counterexample :
    (normalize_scores [⟨"a", 200⟩, ⟨"b", 500⟩, ⟨"c", 800⟩]).1
      ≠ [⟨"a", 200⟩, ⟨"b", 500⟩, ⟨"c", 800⟩] := by
  intro h
  have heval : ((normalize_scores [⟨"a", 200⟩, ⟨"b", 500⟩, ⟨"c", 800⟩]).1).map ScoreRec.score
      = [0, 500, 1000] := by
    norm_num [normalize_scores, listMinInt, listMaxInt, ratTrunc]
  rw [h] at heval
  simp at heval

/-- C6 (amended): `normalize_scores` writes the normalized scores back
into its input batch: the state of the input after the call equals the
returned collection (the same mutated DataFrame), for every input. -/
theorem C6_normalize_mutates_input (scores_df : List ScoreRec) :
    (normalize_scores scores_df).1 = (normalize_scores scores_df).2 := by
  unfold normalize_scores
  split <;> rfl

/-- C2 (counterexample): on a batch where every raw score is 700 the
normalized scores are [0, 0], not the claimed [500, 500]. -/
theorem C2_counterexample :
    ((normalize_scores [⟨"a", 700⟩, ⟨"b", 700⟩]).2).map ScoreRec.score = [0, 0]
    ∧ ((normalize_scores [⟨"a", 700⟩, ⟨"b", 700⟩]).2).map ScoreRec.score ≠ [500, 500] := by
  have h : ((normalize_scores [⟨"a", 700⟩, ⟨"b", 700⟩]).2).map ScoreRec.score = [0, 0] := by
    norm_num [normalize_scores, listMinInt, listMaxInt, ratTrunc]
  refine ⟨h, ?_⟩
  rw [h]
  decide

/-- C2 (amended): for every non-empty batch whose raw scores are all equal
(batch min equals batch max), `normalize_scores` maps every score to the
same defined representative value 0 (sklearn's zero-range guard divides by
1 instead of by the zero range), rather than raising a division-by-zero
error. -/
theorem C2_degenerate_normalize (scores_df : List ScoreRec) (hne : scores_df ≠ [])
    (heq : listMinInt (scores_df.map ScoreRec.score)
      = listMaxInt (scores_df.map ScoreRec.score)) :
    ∀ r ∈ (normalize_scores scores_df).2, r.score = 0 := by
  have hE : scores_df.isEmpty = false := by
    cases scores_df with
    | nil => exact absurd rfl hne
    | cons a l => rfl
  intro r hr
  simp only [normalize_scores, hE, Bool.false_eq_true, if_false] at hr
  obtain ⟨s, hs, rfl⟩ := List.mem_map.mp hr
  have hrange : ((listMaxInt (scores_df.map ScoreRec.score) : Int) : Rat)
      - ((listMinInt (scores_df.map ScoreRec.score) : Int) : Rat) = 0 := by
    rw [heq]
    ring
  have hmem : s.score ∈ scores_df.map ScoreRec.score := List.mem_map_of_mem _ hs
  have h1 := listMinInt_le_mem _ _ hmem
  have h2 := le_listMaxInt_mem _ _ hmem
  have hsc : s.score = listMinInt (scores_df.map ScoreRec.score) :=
    le_antisymm (heq ▸ h2) h1
  simp only [if_pos hrange, hsc]
  have harg : (((listMinInt (scores_df.map ScoreRec.score) : Int) : Rat) * (1 / 1)
      + (0 - ((listMinInt (scores_df.map ScoreRec.score) : Int) : Rat) * (1 / 1))) * 1000
      = 0 := by ring
  rw [harg]
  norm_num [ratTrunc]

/-- C2 witness: the amended theorem applied to the concrete all-equal
batch [700, 700]. -/
theorem C2_degenerate_normalize_witness :
    (([⟨"a", 700⟩, ⟨"b", 700⟩] : List ScoreRec) ≠ []
      ∧ listMinInt (([⟨"a", 700⟩, ⟨"b", 700⟩] : List ScoreRec).map ScoreRec.score)
        = listMaxInt (([⟨"a", 700⟩, ⟨"b", 700⟩] : List ScoreRec).map ScoreRec.score))
    ∧ ∀ r ∈ (normalize_scores [⟨"a", 700⟩, ⟨"b", 700⟩]).2, r.score = 0 :=
  ⟨⟨by decide, by decide⟩, C2_degenerate_normalize _ (by decide) (by decide)⟩

/-- C3: when the batch minimum is strictly below the batch maximum,
`normalize_scores` rescales every score linearly and truncates:
the output scores are `trunc((score - min) / (max - min) * 1000)`,
a score equal to the batch minimum maps to 0, one equal to the batch
maximum maps to 1000, and every output score lies in [0, 1000]. -/
theorem C3_normalize_linear (scores_df : List ScoreRec)
    (h : listMinInt (scores_df.map ScoreRec.score)
      < listMaxInt (scores_df.map ScoreRec.score)) :
    ((normalize_scores scores_df).2).map ScoreRec.score
      = scores_df.map (fun r =>
          ratTrunc (((r.score : Rat) - (listMinInt (scores_df.map ScoreRec.score) : Rat))
            / ((listMaxInt (scores_df.map ScoreRec.score) : Rat)
              - (listMinInt (scores_df.map ScoreRec.score) : Rat)) * 1000))
    ∧ (∀ r ∈ scores_df, r.score = listMinInt (scores_df.map ScoreRec.score) →
        ratTrunc (((r.score : Rat) - (listMinInt (scores_df.map ScoreRec.score) : Rat))
          / ((listMaxInt (scores_df.map ScoreRec.score) : Rat)
            - (listMinInt (scores_df.map ScoreRec.score) : Rat)) * 1000) = 0)
    ∧ (∀ r ∈ scores_df, r.score = listMaxInt (scores_df.map ScoreRec.score) →
        ratTrunc (((r.score : Rat) - (listMinInt (scores_df.map ScoreRec.score) : Rat))
          / ((listMaxInt (scores_df.map ScoreRec.score) : Rat)
            - (listMinInt (scores_df.map ScoreRec.score) : Rat)) * 1000) = 1000)
    ∧ (∀ s ∈ ((normalize_scores scores_df).2).map ScoreRec.score, 0 ≤ s ∧ s ≤ 1000) := by
  have hne : scores_df ≠ [] := by
    intro he
    subst he
    simp [listMinInt, listMaxInt] at h
  have hE : scores_df.isEmpty = false := by
    cases scores_df with
    | nil => exact absurd rfl hne
    | cons a l => rfl
  have hQ : ((listMinInt (scores_df.map ScoreRec.score) : Int) : Rat)
      < ((listMaxInt (scores_df.map ScoreRec.score) : Int) : Rat) := by exact_mod_cast h
  have hpos : (0 : Rat) < ((listMaxInt (scores_df.map ScoreRec.score) : Int) : Rat)
      - ((listMinInt (scores_df.map ScoreRec.score) : Int) : Rat) := by linarith
  have hrange : ((listMaxInt (scores_df.map ScoreRec.score) : Int) : Rat)
      - ((listMinInt (scores_df.map ScoreRec.score) : Int) : Rat) ≠ 0 := ne_of_gt hpos
  have hmap : ((normalize_scores scores_df).2).map ScoreRec.score
      = scores_df.map (fun r =>
          ratTrunc (((r.score : Rat) - (listMinInt (scores_df.map ScoreRec.score) : Rat))
            / ((listMaxInt (scores_df.map ScoreRec.score) : Rat)
              - (listMinInt (scores_df.map ScoreRec.score) : Rat)) * 1000)) := by
    simp only [normalize_scores, hE, Bool.false_eq_true, if_false, List.map_map]
    refine List.map_congr_left ?_
    intro r _
    simp only [Function.comp_apply]
    rw [if_neg hrange]
    congr 1
    field_simp
    ring
  refine ⟨hmap, ?_, ?_, ?_⟩
  · intro r _ hr
    rw [hr, sub_self, zero_div, zero_mul]
    norm_num [ratTrunc]
  · intro r _ hr
    rw [hr, div_self hrange, one_mul]
    norm_num [ratTrunc]
  · intro s hs
    rw [hmap] at hs
    obtain ⟨r, hr, rfl⟩ := List.mem_map.mp hs
    have hmem : r.score ∈ scores_df.map ScoreRec.score := List.mem_map_of_mem _ hr
    have h1 := listMinInt_le_mem _ _ hmem
    have h2 := le_listMaxInt_mem _ _ hmem
    have h1Q : ((listMinInt (scores_df.map ScoreRec.score) : Int) : Rat) ≤ (r.score : Rat) := by
      exact_mod_cast h1
    have h2Q : ((r.score : Int) : Rat)
        ≤ ((listMaxInt (scores_df.map ScoreRec.score) : Int) : Rat) := by exact_mod_cast h2
    have hfrac0 : (0 : Rat)
        ≤ ((r.score : Rat) - (listMinInt (scores_df.map ScoreRec.score) : Rat))
          / ((listMaxInt (scores_df.map ScoreRec.score) : Rat)
            - (listMinInt (scores_df.map ScoreRec.score) : Rat)) :=
      div_nonneg (by linarith) (le_of_lt hpos)
    have hfrac1 : ((r.score : Rat) - (listMinInt (scores_df.map ScoreRec.score) : Rat))
          / ((listMaxInt (scores_df.map ScoreRec.score) : Rat)
            - (listMinInt (scores_df.map ScoreRec.score) : Rat)) ≤ 1 :=
      (div_le_one hpos).mpr (by linarith)
    constructor
    · exact ratTrunc_nonneg _ (by nlinarith)
    · exact ratTrunc_le_of_le _ 1000 (by nlinarith) (by push_cast; nlinarith)

/-- C3 witness: the theorem applied to the batch [200, 500, 800], whose
normalized scores are [0, 500, 1000]. -/
theorem C3_normalize_linear_witness :
    listMinInt (([⟨"a", 200⟩, ⟨"b", 500⟩, ⟨"c", 800⟩] : List ScoreRec).map ScoreRec.score)
      < listMaxInt (([⟨"a", 200⟩, ⟨"b", 500⟩, ⟨"c", 800⟩] : List ScoreRec).map ScoreRec.score)
    ∧ ((normalize_scores [⟨"a", 200⟩, ⟨"b", 500⟩, ⟨"c", 800⟩]).2).map ScoreRec.score
      = [0, 500, 1000] :=
  ⟨by decide,
    ((C3_normalize_linear [⟨"a", 200⟩, ⟨"b", 500⟩, ⟨"c", 800⟩] (by decide)).1).trans (by
      norm_num [listMinInt, listMaxInt, ratTrunc])⟩

/-- C5: whenever the wallet's matching transaction subset is empty
(in particular when the whole frame is empty), `extract_wallet_features`
returns exactly the fixed default record: 365 days of inactivity, all
monetary and ratio fields 0, version "none", behavior "none", trend
"stable". -/
theorem C5_default_features (transactions_df : List Tx) (wallet_address : String) (now : Nat)
    (h : (transactions_df.filter (fun tx => tx.wallet == wallet_address)).isEmpty = true) :
    extract_wallet_features transactions_df wallet_address now =
      { wallet_id := wallet_address
        total_transactions := 0
        first_transaction_date := none
        last_transaction_date := none
        days_since_last_activity := 365
        total_supplied_usd := 0
        total_borrowed_usd := 0
        supply_to_borrow_ratio := 0
        number_of_liquidations := 0
        repayment_frequency := 0
        volatile_asset_usage := 0
        protocol_version_usage := "none"
        collateral_factor_average := 0
        borrowing_behavior := "none"
        health_factor_trend := "stable" } := by
  simp only [extract_wallet_features, h, if_true, ite_self]
  rfl

/-- C5 witness: a frame holding only another wallet's transaction. -/
theorem C5_default_features_witness :
    ((([⟨"0xother", 5, none, none⟩] : List Tx).filter
        (fun tx => tx.wallet == "0xabc")).isEmpty = true)
    ∧ extract_wallet_features [⟨"0xother", 5, none, none⟩] "0xabc" 0 =
      { wallet_id := "0xabc"
        total_transactions := 0
        first_transaction_date := none
        last_transaction_date := none
        days_since_last_activity := 365
        total_supplied_usd := 0
        total_borrowed_usd := 0
        supply_to_borrow_ratio := 0
        number_of_liquidations := 0
        repayment_frequency := 0
        volatile_asset_usage := 0
        protocol_version_usage := "none"
        collateral_factor_average := 0
        borrowing_behavior := "none"
        health_factor_trend := "stable" } :=
  ⟨by decide, C5_default_features _ _ _ (by decide)⟩

/-- C7: with a zero-day activity span, `_calculate_repayment_frequency`
returns exactly the raw count of repayment-keyword matches (so 3 matches
give 3, and no matches give 0), with no division performed. -/
theorem C7_zero_span_repayment (wallet_txs : List Tx)
    (hspan : (listMaxNat (wallet_txs.map Tx.timestamp)
      - listMinNat (wallet_txs.map Tx.timestamp)) / 86400 = 0) :
    _calculate_repayment_frequency wallet_txs
      = ((wallet_txs.filter (fun tx =>
          marketContainsCI tx.market "repay" || topicsAnyKw tx.topics "repay")).length : Rat) := by
  by_cases hE : wallet_txs.isEmpty = true
  · have hnil : wallet_txs = [] := List.isEmpty_iff.mp hE
    subst hnil
    simp [_calculate_repayment_frequency]
  · have hE' : wallet_txs.isEmpty = false := Bool.not_eq_true _ ▸ eq_false_of_ne_true hE
    simp only [_calculate_repayment_frequency, hE', Bool.false_eq_true, if_false]
    by_cases hR : (wallet_txs.filter (fun tx =>
        marketContainsCI tx.market "repay" || topicsAnyKw tx.topics "repay")).isEmpty = true
    · rw [if_pos hR]
      have hlen : (wallet_txs.filter (fun tx =>
          marketContainsCI tx.market "repay" || topicsAnyKw tx.topics "repay")).length = 0 := by
        rw [List.isEmpty_iff.mp hR]
        rfl
      rw [hlen]
      norm_num
    · rw [if_neg hR, if_pos hspan]

/-- C7 witness: three repayment transactions sharing one timestamp
(zero-day span) give frequency exactly 3. -/
theorem C7_zero_span_repayment_witness :
    ((listMaxNat ((([⟨"w", 100, some "repay", none⟩, ⟨"w", 100, some "repay", none⟩,
        ⟨"w", 100, some "repay", none⟩] : List Tx)).map Tx.timestamp)
      - listMinNat ((([⟨"w", 100, some "repay", none⟩, ⟨"w", 100, some "repay", none⟩,
        ⟨"w", 100, some "repay", none⟩] : List Tx)).map Tx.timestamp)) / 86400 = 0)
    ∧ _calculate_repayment_frequency
        [⟨"w", 100, some "repay", none⟩, ⟨"w", 100, some "repay", none⟩,
         ⟨"w", 100, some "repay", none⟩] = 3 :=
  ⟨by decide,
    (C7_zero_span_repayment _ (by decide)).trans (by
      rw [show (([⟨"w", 100, some "repay", none⟩, ⟨"w", 100, some "repay", none⟩,
        ⟨"w", 100, some "repay", none⟩] : List Tx).filter (fun tx =>
          marketContainsCI tx.market "repay" || topicsAnyKw tx.topics "repay")).length = 3
        from by decide]
      norm_num)⟩

/-- C9: for every wallet with at least one matching transaction the
extracted supply-to-borrow ratio is exactly 0 or exactly 1/2: supply and
borrow totals count the identical transaction subset with constants 1000
and 500, so a positive supply total forces ratio 500n/1000n = 1/2, and a
zero supply total leaves the ratio 0. -/
theorem C9_ratio_dichotomy (transactions_df : List Tx) (wallet_address : String) (now : Nat)
    (h : (transactions_df.filter (fun tx => tx.wallet == wallet_address)).isEmpty = false) :
    ((extract_wallet_features transactions_df wallet_address now).supply_to_borrow_ratio = 0
      ∨ (extract_wallet_features transactions_df wallet_address now).supply_to_borrow_ratio
        = 1 / 2)
    ∧ (0 < (extract_wallet_features transactions_df wallet_address now).total_supplied_usd →
        (extract_wallet_features transactions_df wallet_address now).supply_to_borrow_ratio
          = 1 / 2)
    ∧ ((extract_wallet_features transactions_df wallet_address now).total_supplied_usd = 0 →
        (extract_wallet_features transactions_df wallet_address now).supply_to_borrow_ratio
          = 0) := by
  have hdf : transactions_df.isEmpty = false := by
    cases transactions_df with
    | nil => simp at h
    | cons a l => rfl
  simp only [extract_wallet_features, hdf, Bool.false_eq_true, if_false, h,
    _calculate_total_supplied, _calculate_total_borrowed]
  set k := ((transactions_df.filter (fun tx => tx.wallet == wallet_address)).filter
    (fun tx => marketContains tx.market "c"
      || marketIsin tx.market ["USDC", "WETH", "WBTC"])).length with hk
  rcases Nat.eq_zero_or_pos k with h0 | hpos
  · rw [h0]
    norm_num
  · have hkQ : (0 : Rat) < (k : Rat) := by exact_mod_cast hpos
    have hkne : (k : Rat) ≠ 0 := ne_of_gt hkQ
    have hcond : (0 : Rat) < (k : Rat) * 1000 := by nlinarith
    rw [if_pos hcond]
    have hval : ((k : Rat) * 500) / ((k : Rat) * 1000) = 1 / 2 := by
      field_simp
      ring
    refine ⟨Or.inr hval, fun _ => hval, fun hz => absurd hz (ne_of_gt hcond)⟩

/-- C9 witness: one matching `cDAI` transaction gives supply total 1000
and ratio 1/2. -/
theorem C9_ratio_dichotomy_witness :
    ((([⟨"w", 10, some "cDAI", none⟩] : List Tx).filter
        (fun tx => tx.wallet == "w")).isEmpty = false)
    ∧ (((extract_wallet_features [⟨"w", 10, some "cDAI", none⟩] "w" 0).supply_to_borrow_ratio = 0
        ∨ (extract_wallet_features [⟨"w", 10, some "cDAI", none⟩] "w" 0).supply_to_borrow_ratio
          = 1 / 2)
      ∧ (0 < (extract_wallet_features
            [⟨"w", 10, some "cDAI", none⟩] "w" 0).total_supplied_usd →
          (extract_wallet_features [⟨"w", 10, some "cDAI", none⟩] "w" 0).supply_to_borrow_ratio
            = 1 / 2)
      ∧ ((extract_wallet_features
            [⟨"w", 10, some "cDAI", none⟩] "w" 0).total_supplied_usd = 0 →
          (extract_wallet_features [⟨"w", 10, some "cDAI", none⟩] "w" 0).supply_to_borrow_ratio
            = 0)) :=
  ⟨by decide, C9_ratio_dichotomy _ _ _ (by decide)⟩
